import Mathlib

/-!
Verification development for a linkerd2-proxy core: the streaming strategy
watch client (`linkerd/strategy/src/lib.rs`) and the expiring HTTP metrics
registry (`linkerd/http-metrics/src/requests/mod.rs`).

Rust async code is embedded as explicit state passing: the gRPC service is a
script of call outcomes indexed by a call counter, response streams are lists
of `Except`-wrapped messages, the watch channel writer is a published-value
log, and `select_biased!` readiness is an explicit boolean oracle checked in
the same (biased) order as the source.
-/

set_option autoImplicit false

namespace Linkerd

/-- `std::net::SocketAddr`, abstracted to an IP value and a port. -/
structure SocketAddr where
  ip : Nat
  port : Nat
deriving DecidableEq, Repr

/-- `Detect` from `linkerd/strategy/src/lib.rs`: two-variant protocol
detection mode. -/
inductive Detect where
  | Client
  | Opaque
deriving DecidableEq, Repr

/-- `Target` from `linkerd/strategy/src/lib.rs`: three-variant routing
target. The `profile: ()` field of `Concrete` is unit and omitted. -/
inductive Target where
  | Endpoint (addr : SocketAddr)
  | Concrete (authority : String) (metric_labels : List (String × String))
  | Logical
deriving DecidableEq, Repr

/-- `Strategy` from `linkerd/strategy/src/lib.rs`. -/
structure Strategy where
  addr : SocketAddr
  detect : Detect
  target : Target
deriving DecidableEq, Repr

/-- `api::protocol_detection::Protocol` (external `linkerd2-proxy-api`
crate): the oneof payloads are irrelevant to `Strategy::new`, which matches
only on the variant. -/
inductive ApiProtocol where
  | Client
  | Opaque
deriving DecidableEq, Repr

/-- `api::ProtocolDetection`: optional oneof `protocol`. -/
structure ApiDetection where
  protocol : Option ApiProtocol
deriving DecidableEq, Repr

/-- A protobuf address (external crate): `SocketAddr::try_from` on it can
fail. We model the message as an optional ip plus a `u32` port; conversion
succeeds when the ip is present and the port fits in 16 bits. -/
structure ApiTcpAddress where
  ip : Option Nat
  port : Nat
deriving DecidableEq, Repr

/-- `SocketAddr::try_from(a).ok()` for a protobuf address (external crate):
`none` when the ip is absent or the port overflows a `u16`. -/
def ApiTcpAddress.toSocketAddr (a : ApiTcpAddress) : Option SocketAddr :=
  match a.ip with
  | none => none
  | some ip => if a.port < 65536 then some ⟨ip, a.port⟩ else none

/-- `api::WeightedAddr` (external crate): `Strategy::new` uses only the
optional `addr` field. -/
structure ApiWeightedAddr where
  addr : Option ApiTcpAddress
  weight : Nat
deriving DecidableEq, Repr

/-- `api::target::Kind` (external crate), the oneof inside `api::Target`. -/
inductive ApiTargetKind where
  | Endpoint (addr : Option ApiWeightedAddr)
  | Concrete (authority : String) (metric_labels : List (String × String))
  | Logical (metric_labels : List (String × String))
deriving DecidableEq, Repr

/-- `api::Target` (external crate): optional oneof `kind`. -/
structure ApiTarget where
  kind : Option ApiTargetKind
deriving DecidableEq, Repr

/-- `api::StrategyResponse` (external crate): both fields optional. -/
structure StrategyResponse where
  detect : Option ApiDetection
  target : Option ApiTarget
deriving DecidableEq, Repr

/-- `Strategy::new` from `linkerd/strategy/src/lib.rs` lines 203-251:
builds a snapshot from the request address and a decoded response, with
`Detect::Client` and `Target::Endpoint{addr}` as the fallbacks. -/
def Strategy.new (addr : SocketAddr) (rsp : StrategyResponse) : Strategy :=
  let detect :=
    (rsp.detect.bind fun d =>
      d.protocol.map fun p =>
        match p with
        | ApiProtocol.Client => Detect.Client
        | ApiProtocol.Opaque => Detect.Opaque).getD Detect.Client
  let target :=
    (rsp.target.bind fun t =>
      t.kind.bind fun k =>
        match k with
        | ApiTargetKind.Endpoint a =>
            (a.bind fun wa =>
              wa.addr.bind fun ta => ta.toSocketAddr).map
              fun sa => Target.Endpoint sa
        | ApiTargetKind.Concrete authority metric_labels =>
            some (Target.Concrete authority metric_labels)
        | ApiTargetKind.Logical _ => some Target.Logical).getD
      (Target.Endpoint addr)
  { addr := addr, detect := detect, target := target }

/-- `grpc::Code`: only `Ok` is distinguished by the client code; a couple of
non-`Ok` codes suffice for transport failures. -/
inductive Code where
  | Ok
  | Unknown
  | Unavailable
deriving DecidableEq, Repr

/-- `grpc::Status` as constructed by `grpc::Status::new(code, message)`. -/
structure Status where
  code : Code
  message : String
deriving DecidableEq, Repr

/-- The synthetic status built at `lib.rs` lines 141 and 194 when a stream
ends without an error. -/
def serverClosed : Status := ⟨Code.Ok, "server closed stream"⟩

/-- The synthetic status built at `lib.rs` line 161 when the retry schedule
runs out of ticks. -/
def backoffExhausted : Status := ⟨Code.Ok, "Backoff exhausted"⟩

/-- `linkerd2_error::Error` (a boxed error): either a gRPC status converted
via `.into()` / `.err_into()`, or some other boxed error (e.g. from the
recovery policy or the backoff stream). -/
inductive Error where
  | grpc (s : Status)
  | other (msg : String)
deriving DecidableEq, Repr

/-- A `grpc::codec::Streaming<api::StrategyResponse>` embedded as the list
of outcomes its successive `try_next()` calls yield; the end of the list is
`Ok(None)` (graceful close). -/
abbrev RspStream := List (Except Status StrategyResponse)

/-- Outcome of one `service.strategy(req)` call: either the call itself
fails with a status, or it opens a response stream. -/
inductive CallOutcome where
  | failed (s : Status)
  | opened (stream : RspStream)

/-- The `DestinationClient` service embedded as a script: the outcome of the
`n`-th `service.strategy(req)` call. A call counter is threaded through the
client functions, so "number of network calls" is observable. -/
abbrev Service := Nat → CallOutcome

/-- `R::Backoff`: a lazy stream of ticks that may itself fail; the end of
the list is stream exhaustion (`try_next` returning `Ok(None)`). -/
abbrev Backoff := List (Except Error Unit)

/-- The recovery policy `R: Recover<grpc::Status>`: `recover(status)` either
yields a fresh retry schedule or rejects the failure as non-recoverable. -/
abbrev Policy := Status → Except Error Backoff

/-- `Client::init` (`lib.rs` lines 133-144): performs the `n`-th service
call and reads exactly one response from the new stream. `Ok(None)` (zero
responses) becomes the synthetic `serverClosed` status; a success returns
the first snapshot and the untouched remainder of the stream. -/
def init (addr : SocketAddr) (svc : Service) (n : Nat) :
    Except Status (Strategy × RspStream) :=
  match svc n with
  | CallOutcome.failed s => Except.error s
  | CallOutcome.opened stream =>
      match stream with
      | [] => Except.error serverClosed
      | Except.error s :: _ => Except.error s
      | Except.ok rsp :: rest => Except.ok (Strategy.new addr rsp, rest)

/-- The `loop` in `Client::recover` (`lib.rs` lines 159-171): consume one
tick of the schedule obtained for the original failure, retry `init`, and on
renewed failure re-consult the policy only for its verdict, discarding any
schedule it returns (`let _ = recover.recover(status)?`). Returns the result
paired with the final call count. -/
def recoverLoop (addr : SocketAddr) (svc : Service) (policy : Policy)
    (backoff : Backoff) (n : Nat) :
    Except Error (Strategy × RspStream) × Nat :=
  match backoff with
  | [] => (Except.error (Error.grpc backoffExhausted), n)
  | Except.error e :: _ => (Except.error e, n)
  | Except.ok () :: rest =>
      match init addr svc n with
      | Except.ok rsp => (Except.ok rsp, n + 1)
      | Except.error status =>
          match policy status with
          | Except.error e => (Except.error e, n + 1)
          | Except.ok _ => recoverLoop addr svc policy rest (n + 1)

/-- `Client::recover` (`lib.rs` lines 150-172): obtain one retry schedule
for the triggering failure, then run the retry loop over it. -/
def recover (addr : SocketAddr) (svc : Service) (policy : Policy)
    (status : Status) (n : Nat) :
    Except Error (Strategy × RspStream) × Nat :=
  match policy status with
  | Except.error e => (Except.error e, n)
  | Except.ok backoff => recoverLoop addr svc policy backoff n

/-- The observable result of `Client::watch`: the value seeding the watch
channel returned to the caller (or the error), and how many daemon tasks
`tokio::spawn` was handed. -/
structure WatchResult where
  outcome : Except Error Strategy
  spawned : Nat
deriving Repr

/-- `Client::watch` (`lib.rs` lines 62-93): try `init`; on failure run
`recover` and propagate its error (spawning nothing); on success seed the
watch channel with the first snapshot and spawn exactly one daemon. Returns
the result paired with the final call count. -/
def watch (addr : SocketAddr) (svc : Service) (policy : Policy) (n : Nat) :
    WatchResult × Nat :=
  match init addr svc n with
  | Except.ok (strategy, _) => (⟨Except.ok strategy, 1⟩, n + 1)
  | Except.error status =>
      match recover addr svc policy status (n + 1) with
      | (Except.error e, c) => (⟨Except.error e, 0⟩, c)
      | (Except.ok (strategy, _), c) => (⟨Except.ok strategy, 1⟩, c)

/-- `Client::broadcast` (`lib.rs` lines 178-200). Each loop iteration is one
resolution of `select_biased!` at poll instant `i`: the `tx.closed()` branch
is listed first, so when the drop signal is ready it wins even if a stream
item is simultaneously ready. `closed` is the readiness oracle for the drop
signal (monotone in any real execution; no theorem needs that). Published
values are accumulated in `pub`; the result also carries the poll instant at
which the loop ended. -/
def broadcast (addr : SocketAddr) (closed : Nat → Bool) (stream : RspStream)
    (pub : List Strategy) (i : Nat) :
    Except Status Unit × List Strategy × Nat :=
  if closed i then (Except.ok (), pub, i)
  else
    match stream with
    | [] => (Except.error serverClosed, pub, i)
    | Except.error s :: _ => (Except.error s, pub, i)
    | Except.ok rsp :: rest =>
        broadcast addr closed rest (pub ++ [Strategy.new addr rsp]) (i + 1)

/-- `Client::daemon` (`lib.rs` lines 96-130). Relay from the stream until it
fails; then `select_biased!` races the drop signal (checked first, at the
next poll instant) against the recovery future. Mid-recovery cancellation is
coarsened to that single biased check before the recovery result is
consumed. Returns the published log and the final service-call count, or
`none` when `fuel` runs out before the daemon terminates. -/
def daemon (addr : SocketAddr) (svc : Service) (policy : Policy)
    (closed : Nat → Bool) (stream : RspStream) (pub : List Strategy)
    (n : Nat) (i : Nat) (fuel : Nat) : Option (List Strategy × Nat) :=
  match fuel with
  | 0 => none
  | fuel + 1 =>
      match broadcast addr closed stream pub i with
      | (Except.ok (), pub2, _) => some (pub2, n)
      | (Except.error status, pub2, i2) =>
          if closed (i2 + 1) then some (pub2, n)
          else
            match recover addr svc policy status n with
            | (Except.error _, n2) => some (pub2, n2)
            | (Except.ok (strategy, stream2), n2) =>
                daemon addr svc policy closed stream2 (pub2 ++ [strategy])
                  n2 (i2 + 2) fuel

/-- `ClassMetrics` from `linkerd/http-metrics/src/requests/mod.rs`. -/
structure ClassMetrics where
  total : Nat
deriving DecidableEq, Repr

/-- `StatusMetrics<C>` from `requests/mod.rs`: a latency histogram (the
recorded millisecond values) and per-class counters; `IndexMap` is embedded
as an insertion-ordered association list. -/
structure StatusMetrics (C : Type) where
  latency : List Nat
  by_class : List (C × ClassMetrics)
deriving DecidableEq, Repr

/-- `Metrics<C>` from `requests/mod.rs`: `Instant` is embedded as a `Nat`
timestamp. -/
structure Metrics (C : Type) where
  last_update : Nat
  total : Nat
  by_status : List (Option Nat × StatusMetrics C)
deriving DecidableEq, Repr

/-- The registry's value slot: an `Arc`-shared metrics record together with
the number of strong references held OUTSIDE the registry's own map entry
(the test's `metrics` clone is one such handle; dropping it brings this to
zero). -/
structure SharedMetrics (C : Type) where
  externalHandles : Nat
  metrics : Metrics C
deriving DecidableEq, Repr

/-- `Registry<T, Metrics<C>>` (declared in the parent `http-metrics` module;
its `by_target` map is exercised by `requests::tests::expiry`): an
insertion-ordered map from target to shared record. -/
structure Registry (T C : Type) where
  by_target : List (T × SharedMetrics C)
deriving DecidableEq, Repr

/-- Modelled from the spec: `Registry::retain_since` is defined in the
parent `http-metrics` module, which is not among the provided sources (only
its test `requests::tests::expiry` is). Per spec §4.1 the sweep visits every
entry and evicts exactly those whose `last_update` is older than the cutoff
AND whose only remaining strong reference is the registry's own map entry;
every other entry is retained unmodified, in order. -/
def Registry.retain_since {T C : Type} (r : Registry T C) (cutoff : Nat) :
    Registry T C :=
  ⟨r.by_target.filter fun kv =>
    decide (cutoff ≤ kv.2.metrics.last_update) || decide (0 < kv.2.externalHandles)⟩

/-- The heap of live `Arc<RwLock<Registry>>` allocations; handles hold
indices into it (an index models the `Arc`'s pointed-to allocation). -/
structure Store (T C : Type) where
  regs : List (Registry T C)

/-- `Requests<T, C>` from `requests/mod.rs`: a newtype over the shared
registry pointer. -/
structure Requests (T C : Type) where
  ptr : Nat
deriving DecidableEq, Repr

/-- `Report<T, Metrics<C>>` as produced by `Requests::into_report`
(`Report::new(retain_idle, self.0)`): the idle-retention duration plus the
same shared registry pointer. -/
structure Report (T C : Type) where
  retain_idle : Nat
  ptr : Nat
deriving DecidableEq, Repr

/-- `layer::Layer` as produced by `Requests::into_layer`
(`layer::Layer::new(self.0)`): the same shared registry pointer. -/
structure Layer (T C : Type) where
  ptr : Nat
deriving DecidableEq, Repr

/-- `impl Clone for Requests` (`requests/mod.rs` lines 71-75):
`Requests(self.0.clone())` clones the `Arc`, i.e. copies the pointer, not
the registry. -/
def Requests.clone {T C : Type} (r : Requests T C) : Requests T C :=
  ⟨r.ptr⟩

/-- `Requests::into_report` (`requests/mod.rs` lines 56-61). -/
def Requests.into_report {T C : Type} (r : Requests T C) (retain_idle : Nat) :
    Report T C :=
  ⟨retain_idle, r.ptr⟩

/-- `Requests::into_layer` (`requests/mod.rs` lines 63-68). -/
def Requests.into_layer {T C : Type} (r : Requests T C) : Layer T C :=
  ⟨r.ptr⟩

/-- Replace the element at an index, leaving the list unchanged when the
index is out of range. -/
def updateAt {α : Type} : List α → Nat → (α → α) → List α
  | [], _, _ => []
  | x :: xs, 0, f => f x :: xs
  | x :: xs, p + 1, f => x :: updateAt xs p f

/-- A record creation or mutation performed through a `Requests` handle:
the registry behind the handle's pointer is updated in place. -/
def Requests.mutate {T C : Type} (s : Store T C) (r : Requests T C)
    (f : Registry T C → Registry T C) : Store T C :=
  ⟨updateAt s.regs r.ptr f⟩

/-- The registry contents observed through a `Requests` handle. -/
def Requests.view {T C : Type} (s : Store T C) (r : Requests T C) :
    Registry T C :=
  s.regs.getD r.ptr ⟨[]⟩

/-- The registry contents observed through a `Report` handle. -/
def Report.view {T C : Type} (s : Store T C) (rp : Report T C) :
    Registry T C :=
  s.regs.getD rp.ptr ⟨[]⟩

/-- The registry contents observed through a `Layer` handle. -/
def Layer.view {T C : Type} (s : Store T C) (l : Layer T C) :
    Registry T C :=
  s.regs.getD l.ptr ⟨[]⟩

/-- C9: `Strategy::new` is a total function (it is defined by structural
pattern matching with `unwrap_or` fallbacks, never failing), and the
snapshot's `addr` field is always the original request address, whatever the
response carries. -/
theorem C9_addr_preserved (addr : SocketAddr) (rsp : StrategyResponse) :
    (Strategy.new addr rsp).addr = addr := rfl

/-- C8: the snapshot's `detect` field is `Client` when the detection field
is absent or carries no protocol, `Client` for the `Client` protocol
variant, and `Opaque` exactly when the protocol is the `Opaque` variant. -/
theorem C8_detect_defaulting (addr : SocketAddr) (rsp : StrategyResponse) :
    ((rsp.detect = none ∨ (∃ d, rsp.detect = some d ∧ d.protocol = none)) →
      (Strategy.new addr rsp).detect = Detect.Client)
    ∧ (∀ d, rsp.detect = some d → d.protocol = some ApiProtocol.Client →
        (Strategy.new addr rsp).detect = Detect.Client)
    ∧ ((Strategy.new addr rsp).detect = Detect.Opaque ↔
        ∃ d, rsp.detect = some d ∧ d.protocol = some ApiProtocol.Opaque) := by
  obtain ⟨det, tgt⟩ := rsp
  refine ⟨?_, ?_, ?_⟩
  · rintro (h | ⟨d, hd, hp⟩) <;> simp_all [Strategy.new]
  · rintro d rfl hp
    simp [Strategy.new, hp]
  · cases det with
    | none => simp [Strategy.new]
    | some d =>
        cases hp : d.protocol with
        | none => simp [Strategy.new, hp]
        | some p => cases p <;> simp [Strategy.new, hp]

/-- Witness for C8 at concrete responses: an absent detection field defaults
to `Client`, and an `Opaque` protocol yields `Opaque`. -/
theorem C8_detect_defaulting_witness :
    (Strategy.new ⟨10, 80⟩ ⟨none, none⟩).detect = Detect.Client
    ∧ (Strategy.new ⟨10, 80⟩
        ⟨some ⟨some ApiProtocol.Opaque⟩, none⟩).detect = Detect.Opaque :=
  ⟨(C8_detect_defaulting ⟨10, 80⟩ ⟨none, none⟩).1 (Or.inl rfl),
   (C8_detect_defaulting ⟨10, 80⟩ ⟨some ⟨some ApiProtocol.Opaque⟩, none⟩).2.2.mpr
     ⟨⟨some ApiProtocol.Opaque⟩, rfl, rfl⟩⟩

/-- C7: an absent or unparseable target (including an `Endpoint` kind whose
address is missing or fails conversion) defaults the snapshot's target to
`Endpoint` at the original request address; a `Concrete` kind yields
`Concrete` with the response's authority and labels; a `Logical` kind yields
`Logical`. -/
theorem C7_target_defaulting (addr : SocketAddr) (rsp : StrategyResponse) :
    ((rsp.target = none
        ∨ (∃ t, rsp.target = some t ∧ t.kind = none)
        ∨ (∃ t a, rsp.target = some t
            ∧ t.kind = some (ApiTargetKind.Endpoint a)
            ∧ (a.bind fun wa => wa.addr.bind fun ta => ta.toSocketAddr)
              = none)) →
      (Strategy.new addr rsp).target = Target.Endpoint addr)
    ∧ (∀ t authority metric_labels, rsp.target = some t →
        t.kind = some (ApiTargetKind.Concrete authority metric_labels) →
        (Strategy.new addr rsp).target
          = Target.Concrete authority metric_labels)
    ∧ (∀ t metric_labels, rsp.target = some t →
        t.kind = some (ApiTargetKind.Logical metric_labels) →
        (Strategy.new addr rsp).target = Target.Logical) := by
  obtain ⟨det, tgt⟩ := rsp
  refine ⟨?_, ?_, ?_⟩
  · rintro (h | ⟨t, ht, hk⟩ | ⟨t, a, ht, hk, ha⟩)
    · simp_all [Strategy.new]
    · simp_all [Strategy.new]
    · subst ht
      cases a with
      | none => simp [Strategy.new, hk]
      | some wa =>
          cases hwa : wa.addr with
          | none => simp [Strategy.new, hk, hwa]
          | some ta =>
              have hta : ta.toSocketAddr = none := by simpa [hwa] using ha
              simp [Strategy.new, hk, hwa, hta]
  · rintro t authority metric_labels rfl hk
    simp [Strategy.new, hk]
  · rintro t metric_labels rfl hk
    simp [Strategy.new, hk]

/-- Witness for C7 at concrete responses: a missing target defaults to the
request address, an `Endpoint` kind with an unconvertible address defaults
likewise, and a `Concrete` kind is taken verbatim. -/
theorem C7_target_defaulting_witness :
    (Strategy.new ⟨10, 80⟩ ⟨none, none⟩).target = Target.Endpoint ⟨10, 80⟩
    ∧ (Strategy.new ⟨10, 80⟩
        ⟨none, some ⟨some (ApiTargetKind.Endpoint
          (some ⟨some ⟨none, 9⟩, 1⟩))⟩⟩).target = Target.Endpoint ⟨10, 80⟩
    ∧ (Strategy.new ⟨10, 80⟩
        ⟨none, some ⟨some (ApiTargetKind.Concrete "svc.ns" [("a", "b")])⟩⟩).target
          = Target.Concrete "svc.ns" [("a", "b")] :=
  ⟨(C7_target_defaulting ⟨10, 80⟩ ⟨none, none⟩).1 (Or.inl rfl),
   (C7_target_defaulting ⟨10, 80⟩ _).1
     (Or.inr (Or.inr ⟨⟨some (ApiTargetKind.Endpoint (some ⟨some ⟨none, 9⟩, 1⟩))⟩,
       some ⟨some ⟨none, 9⟩, 1⟩, rfl, rfl, rfl⟩)),
   (C7_target_defaulting ⟨10, 80⟩ _).2.1
     ⟨some (ApiTargetKind.Concrete "svc.ns" [("a", "b")])⟩ "svc.ns" [("a", "b")]
     rfl rfl⟩

/-- When every reconnect attempt fails with a status the policy still
accepts, the retry loop makes exactly one attempt per tick of the schedule
it was handed and then fails with the synthetic exhaustion status; the call
counter advances by exactly the number of ticks. -/
theorem recoverLoop_exhausts (addr : SocketAddr) (svc : Service)
    (policy : Policy)
    (hfail : ∀ m, ∃ st, init addr svc m = Except.error st
      ∧ ∃ b, policy st = Except.ok b) :
    ∀ (ticks m : Nat),
      recoverLoop addr svc policy (List.replicate ticks (Except.ok ())) m
        = (Except.error (Error.grpc backoffExhausted), m + ticks) := by
  intro ticks
  induction ticks with
  | zero => intro m; simp [recoverLoop]
  | succ t ih =>
      intro m
      obtain ⟨st, hinit, b, hpol⟩ := hfail m
      have h := ih (m + 1)
      simp only [List.replicate_succ, recoverLoop, hinit, hpol, h]
      have : m + 1 + t = m + (t + 1) := by omega
      rw [this]

/-- C2: the recovery loop never replaces its retry schedule. Even with a
policy that hands out a fresh `ticks`-long schedule on every consultation,
consecutive failed reconnect attempts each consume one tick of the schedule
obtained for the original failure — exactly `ticks` attempts occur before
the exhaustion error. The policy is re-consulted on each new failure only
for its verdict: when it declares the renewed failure non-recoverable, the
loop aborts with that error after the single attempt, and any schedule it
returned was discarded unused. -/
theorem C2_backoff_reuse (addr : SocketAddr) (svc : Service) (ticks n : Nat)
    (s0 : Status) :
    (∀ policy : Policy,
        (∀ st, policy st = Except.ok (List.replicate ticks (Except.ok ()))) →
        (∀ m, ∃ st, init addr svc m = Except.error st) →
        recover addr svc policy s0 n
          = (Except.error (Error.grpc backoffExhausted), n + ticks))
    ∧ (∀ (policy : Policy) (rest : Backoff) (st1 : Status) (e : Error),
        policy s0 = Except.ok (Except.ok () :: rest) →
        init addr svc n = Except.error st1 →
        policy st1 = Except.error e →
        recover addr svc policy s0 n = (Except.error e, n + 1)) := by
  constructor
  · intro policy hpol hfail
    have h := recoverLoop_exhausts addr svc policy
      (fun m => by
        obtain ⟨st, hst⟩ := hfail m
        exact ⟨st, hst, _, hpol st⟩) ticks n
    simpa [recover, hpol s0] using h
  · intro policy rest st1 e hp0 hinit hp1
    simp [recover, hp0, recoverLoop, hinit, hp1]

/-- Witness for C2: with a two-tick schedule served on every consultation
and a service that always refuses the call, recovery makes exactly two
attempts and fails with the exhaustion status. -/
theorem C2_backoff_reuse_witness :
    recover ⟨1, 80⟩ (fun _ => CallOutcome.failed ⟨Code.Unavailable, "refused"⟩)
      (fun _ => Except.ok (List.replicate 2 (Except.ok ())))
      ⟨Code.Unavailable, "refused"⟩ 0
      = (Except.error (Error.grpc backoffExhausted), 2) :=
  (C2_backoff_reuse ⟨1, 80⟩
      (fun _ => CallOutcome.failed ⟨Code.Unavailable, "refused"⟩) 2 0
      ⟨Code.Unavailable, "refused"⟩).1
    (fun _ => Except.ok (List.replicate 2 (Except.ok ())))
    (fun _ => rfl)
    (fun _ => ⟨⟨Code.Unavailable, "refused"⟩, rfl⟩)

/-- C3: the biased select commits to the drop signal. If the drop signal is
ready at poll instant `i`, `broadcast` terminates cleanly at once — even
when a stream item is simultaneously ready — publishing nothing further; if
`broadcast` fails and the drop signal is ready at the recovering select, the
daemon terminates with its service-call count unchanged (no further network
call or reconnect attempt); and a daemon whose drop signal is ready before
the next stream item terminates cleanly with its call count unchanged. -/
theorem C3_drop_precedence (addr : SocketAddr) (closed : Nat → Bool) :
    (∀ stream pub i, closed i = true →
        broadcast addr closed stream pub i = (Except.ok (), pub, i))
    ∧ (∀ svc policy stream pub n i fuel status pub2 i2,
        broadcast addr closed stream pub i = (Except.error status, pub2, i2) →
        closed (i2 + 1) = true →
        daemon addr svc policy closed stream pub n i (fuel + 1)
          = some (pub2, n))
    ∧ (∀ svc policy stream pub n i fuel, closed i = true →
        daemon addr svc policy closed stream pub n i (fuel + 1)
          = some (pub, n)) := by
  have hbc : ∀ (stream : RspStream) (pub : List Strategy) (i : Nat),
      closed i = true →
      broadcast addr closed stream pub i = (Except.ok (), pub, i) := by
    intro stream pub i h
    rw [broadcast.eq_def]
    simp [h]
  refine ⟨hbc, ?_, ?_⟩
  · intro svc policy stream pub n i fuel status pub2 i2 hb hcl
    simp [daemon, hb, hcl]
  · intro svc policy stream pub n i fuel h
    simp [daemon, hbc stream pub i h]

/-- Witness for C3: readers drop at poll instant 1; a stream failure
observed at instant 0 is followed by the biased recovering select seeing the
drop signal, so the daemon exits with its call count still 7 and the failing
policy and service are never consulted. -/
theorem C3_drop_precedence_witness :
    daemon ⟨1, 80⟩ (fun _ => CallOutcome.failed ⟨Code.Unknown, "x"⟩)
      (fun _ => Except.error (Error.other "fatal"))
      (fun i => decide (1 ≤ i))
      [Except.error ⟨Code.Unknown, "x"⟩] [] 7 0 1 = some ([], 7) :=
  (C3_drop_precedence ⟨1, 80⟩ (fun i => decide (1 ≤ i))).2.1
    (fun _ => CallOutcome.failed ⟨Code.Unknown, "x"⟩)
    (fun _ => Except.error (Error.other "fatal"))
    [Except.error ⟨Code.Unknown, "x"⟩] [] 7 0 0
    ⟨Code.Unknown, "x"⟩ [] 0 (by simp [broadcast]) rfl

/-- C4: `watch` spawns a daemon exactly on success. If the initial call
fails and recovery fails, `watch` returns recovery's error — the underlying
failure — and spawns nothing; if the initial call (or recovery) succeeds,
the returned receiver is seeded with that first snapshot and exactly one
daemon is spawned; in all cases the spawn count is one exactly when the
outcome is a success. -/
theorem C4_watch_spawn (addr : SocketAddr) (svc : Service) (policy : Policy)
    (n : Nat) :
    (∀ status e c, init addr svc n = Except.error status →
        recover addr svc policy status (n + 1) = (Except.error e, c) →
        watch addr svc policy n = (⟨Except.error e, 0⟩, c))
    ∧ (∀ strategy stream, init addr svc n = Except.ok (strategy, stream) →
        watch addr svc policy n = (⟨Except.ok strategy, 1⟩, n + 1))
    ∧ (∀ status strategy stream c, init addr svc n = Except.error status →
        recover addr svc policy status (n + 1)
          = (Except.ok (strategy, stream), c) →
        watch addr svc policy n = (⟨Except.ok strategy, 1⟩, c))
    ∧ ((watch addr svc policy n).1.spawned
        = if (watch addr svc policy n).1.outcome.isOk then 1 else 0) := by
  refine ⟨?_, ?_, ?_, ?_⟩
  · intro status e c hi hr
    simp [watch, hi, hr]
  · intro strategy stream hi
    simp [watch, hi]
  · intro status strategy stream c hi hr
    simp [watch, hi, hr]
  · unfold watch
    cases hi : init addr svc n with
    | ok p => simp [Except.isOk, Except.toBool]
    | error status =>
        rcases hr : recover addr svc policy status (n + 1) with ⟨res, c⟩
        cases res with
        | error e => simp [hr, Except.isOk, Except.toBool]
        | ok p =>
            rcases p with ⟨strategy, stream⟩
            simp [hr, Except.isOk, Except.toBool]

/-- Witness for C4: a service that always refuses and a policy that rejects
the failure outright make `watch` surface the policy's error and spawn
nothing. -/
theorem C4_watch_spawn_witness :
    watch ⟨1, 80⟩ (fun _ => CallOutcome.failed ⟨Code.Unavailable, "refused"⟩)
      (fun _ => Except.error (Error.other "not recoverable")) 0
      = (⟨Except.error (Error.other "not recoverable"), 0⟩, 1) :=
  (C4_watch_spawn ⟨1, 80⟩
      (fun _ => CallOutcome.failed ⟨Code.Unavailable, "refused"⟩)
      (fun _ => Except.error (Error.other "not recoverable")) 0).1
    ⟨Code.Unavailable, "refused"⟩ (Error.other "not recoverable") 1 rfl rfl

/-- The retry loop consults the service only at call indices at or above
its starting counter. -/
theorem recoverLoop_congr (addr : SocketAddr) (policy : Policy)
    (svc1 svc2 : Service) :
    ∀ (b : Backoff) (m : Nat), (∀ k, m ≤ k → svc1 k = svc2 k) →
      recoverLoop addr svc1 policy b m = recoverLoop addr svc2 policy b m := by
  intro b
  induction b with
  | nil => intro m h; simp [recoverLoop]
  | cons x rest ih =>
      intro m h
      cases x with
      | error e => simp [recoverLoop]
      | ok u =>
          cases u
          have hinit : init addr svc1 m = init addr svc2 m := by
            unfold init
            rw [h m le_rfl]
          cases hI : init addr svc2 m with
          | ok rsp => simp [recoverLoop, hinit, hI]
          | error st =>
              cases hP : policy st with
              | error e => simp [recoverLoop, hinit, hI, hP]
              | ok b2 =>
                  simp only [recoverLoop, hinit, hI, hP]
                  exact ih (m + 1) (fun k hk => h k (by omega))

/-- C5: `init` reads exactly one response from the new stream, leaving the
remainder untouched; a stream that closes with zero responses yields the
synthetic Ok-code "server closed stream" status instead of a snapshot; and
that condition is handled by recovery exactly like a transport failure:
against the same subsequent service behavior and a policy that does not
distinguish the two statuses, `watch` returns identical results. -/
theorem C5_server_close (addr : SocketAddr) (n : Nat) :
    (∀ (svc : Service) rsp rest,
        svc n = CallOutcome.opened (Except.ok rsp :: rest) →
        init addr svc n = Except.ok (Strategy.new addr rsp, rest))
    ∧ (∀ svc : Service, svc n = CallOutcome.opened [] →
        init addr svc n = Except.error serverClosed
          ∧ serverClosed = ⟨Code.Ok, "server closed stream"⟩)
    ∧ (∀ (svc1 svc2 : Service) (policy : Policy) (s : Status),
        svc1 n = CallOutcome.opened [] →
        svc2 n = CallOutcome.failed s →
        (∀ m, n < m → svc1 m = svc2 m) →
        policy serverClosed = policy s →
        watch addr svc1 policy n = watch addr svc2 policy n) := by
  refine ⟨?_, ?_, ?_⟩
  · intro svc rsp rest h
    simp [init, h]
  · intro svc h
    exact ⟨by simp [init, h], rfl⟩
  · intro svc1 svc2 policy s h1 h2 hs hp
    have i1 : init addr svc1 n = Except.error serverClosed := by
      simp [init, h1]
    have i2 : init addr svc2 n = Except.error s := by
      simp [init, h2]
    have hr : recover addr svc1 policy serverClosed (n + 1)
        = recover addr svc2 policy s (n + 1) := by
      unfold recover
      rw [hp]
      cases policy s with
      | error e => rfl
      | ok b =>
          exact recoverLoop_congr addr policy svc1 svc2 b (n + 1)
            (fun k hk => hs k (by omega))
    simp only [watch, i1, i2, hr]

/-- Witness for C5: a call whose stream closes with zero responses makes
`init` fail with the synthetic status, and `watch` over it coincides with
`watch` over a service whose call fails with a transport status outright. -/
theorem C5_server_close_witness :
    (init ⟨1, 80⟩ (fun _ => CallOutcome.opened []) 0 = Except.error serverClosed
      ∧ serverClosed = ⟨Code.Ok, "server closed stream"⟩)
    ∧ watch ⟨1, 80⟩ (fun _ => CallOutcome.opened [])
        (fun _ => Except.error (Error.other "fatal")) 0
      = watch ⟨1, 80⟩
        (fun k => if k = 0 then CallOutcome.failed ⟨Code.Unavailable, "refused"⟩
          else CallOutcome.opened [])
        (fun _ => Except.error (Error.other "fatal")) 0 :=
  ⟨(C5_server_close ⟨1, 80⟩ 0).2.1 (fun _ => CallOutcome.opened []) rfl,
   (C5_server_close ⟨1, 80⟩ 0).2.2 (fun _ => CallOutcome.opened [])
     (fun k => if k = 0 then CallOutcome.failed ⟨Code.Unavailable, "refused"⟩
       else CallOutcome.opened [])
     (fun _ => Except.error (Error.other "fatal")) ⟨Code.Unavailable, "refused"⟩
     rfl rfl (fun m hm => by simp [Nat.pos_iff_ne_zero.mp hm]) rfl⟩

/-- With the drop signal never ready, `broadcast` publishes every
successful response in order and surfaces the stream's failure status. -/
theorem broadcast_relay (addr : SocketAddr) :
    ∀ (rsps : List StrategyResponse) (s : Status) (tail : RspStream)
      (pub : List Strategy) (i : Nat),
      broadcast addr (fun _ => false)
          (rsps.map Except.ok ++ Except.error s :: tail) pub i
        = (Except.error s, pub ++ rsps.map (Strategy.new addr),
            i + rsps.length) := by
  intro rsps
  induction rsps with
  | nil => intro s tail pub i; simp [broadcast]
  | cons r rs ih =>
      intro s tail pub i
      rw [broadcast.eq_def]
      simp only [List.map_cons, List.cons_append, Bool.false_eq_true,
        if_false, ih s tail (pub ++ [Strategy.new addr r]) (i + 1)]
      simp [List.append_assoc]
      omega

/-- With the drop signal never ready, a stream that ends after its
successful responses has them all published and surfaces the synthetic
"server closed stream" status. -/
theorem broadcast_relay_close (addr : SocketAddr) :
    ∀ (rsps : List StrategyResponse) (pub : List Strategy) (i : Nat),
      broadcast addr (fun _ => false) (rsps.map Except.ok) pub i
        = (Except.error serverClosed, pub ++ rsps.map (Strategy.new addr),
            i + rsps.length) := by
  intro rsps
  induction rsps with
  | nil => intro pub i; simp [broadcast]
  | cons r rs ih =>
      intro pub i
      rw [broadcast.eq_def]
      simp only [List.map_cons, Bool.false_eq_true, if_false,
        ih (pub ++ [Strategy.new addr r]) (i + 1)]
      simp [List.append_assoc]
      omega

/-- C6: on the Recovering-to-Streaming transition the daemon first
republishes the new initial snapshot, then relays the fresh stream. Given a
first stream that yields `rsps1` and then fails, and a reconnect whose call
opens a stream with initial response `rsp0` followed by `rsps2`, the
published log is exactly the pre-failure snapshots, then the new initial
snapshot, then the post-failure snapshots — nothing skipped by the writer —
with exactly one reconnect call. -/
theorem C6_reconnect_republish (addr : SocketAddr) (svc : Service)
    (policy : Policy) (rsps1 rsps2 : List StrategyResponse)
    (rsp0 : StrategyResponse) (s : Status) (n i fuel : Nat) (e : Error)
    (hpol : policy s = Except.ok [Except.ok ()])
    (hsvc : svc n = CallOutcome.opened (Except.ok rsp0 :: rsps2.map Except.ok))
    (hpolc : policy serverClosed = Except.error e) :
    daemon addr svc policy (fun _ => false)
        (rsps1.map Except.ok ++ [Except.error s]) [] n i (fuel + 2)
      = some (rsps1.map (Strategy.new addr)
          ++ Strategy.new addr rsp0 :: rsps2.map (Strategy.new addr),
          n + 1) := by
  have hinit : init addr svc n
      = Except.ok (Strategy.new addr rsp0, rsps2.map Except.ok) := by
    simp [init, hsvc]
  have hrec : recover addr svc policy s n
      = (Except.ok (Strategy.new addr rsp0, rsps2.map Except.ok), n + 1) := by
    simp [recover, hpol, recoverLoop, hinit]
  have hrec2 : recover addr svc policy serverClosed (n + 1)
      = (Except.error e, n + 1) := by
    simp [recover, hpolc]
  have h1 := broadcast_relay addr rsps1 s [] [] i
  have h2 := broadcast_relay_close addr rsps2
    (rsps1.map (Strategy.new addr) ++ [Strategy.new addr rsp0])
    (i + rsps1.length + 2)
  rw [daemon, h1]
  simp only [Bool.false_eq_true, if_false, hrec, List.nil_append]
  rw [daemon, h2]
  simp only [Bool.false_eq_true, if_false, hrec2]
  simp [List.append_assoc]

/-- Witness for C6: one snapshot before the failure, a reconnect whose
stream opens with a new snapshot and carries one more; all three appear in
order and exactly one reconnect call is made. -/
theorem C6_reconnect_republish_witness :
    daemon ⟨1, 80⟩
      (fun _ => CallOutcome.opened
        [Except.ok ⟨none, none⟩,
         Except.ok ⟨some ⟨some ApiProtocol.Opaque⟩, none⟩])
      (fun st => if st.code = Code.Ok then Except.error (Error.other "done")
        else Except.ok [Except.ok ()])
      (fun _ => false)
      [Except.ok ⟨some ⟨some ApiProtocol.Client⟩, none⟩,
       Except.error ⟨Code.Unavailable, "reset"⟩] [] 0 0 2
      = some ([Strategy.new ⟨1, 80⟩ ⟨some ⟨some ApiProtocol.Client⟩, none⟩,
          Strategy.new ⟨1, 80⟩ ⟨none, none⟩,
          Strategy.new ⟨1, 80⟩ ⟨some ⟨some ApiProtocol.Opaque⟩, none⟩], 1) :=
  C6_reconnect_republish ⟨1, 80⟩
    (fun _ => CallOutcome.opened
      [Except.ok ⟨none, none⟩,
       Except.ok ⟨some ⟨some ApiProtocol.Opaque⟩, none⟩])
    (fun st => if st.code = Code.Ok then Except.error (Error.other "done")
      else Except.ok [Except.ok ()])
    [⟨some ⟨some ApiProtocol.Client⟩, none⟩]
    [⟨some ⟨some ApiProtocol.Opaque⟩, none⟩]
    ⟨none, none⟩ ⟨Code.Unavailable, "reset"⟩ 0 0 0 (Error.other "done")
    rfl rfl rfl

/-- C1: a sweep `retain_since t` retains a record exactly when its
`last_update` is at least `t` or an external handle to it is still held; it
evicts exactly the entries that are both stale and solely referenced by the
registry's own map entry; retained entries keep their contents and relative
order. -/
theorem C1_retain_since_spec {T C : Type} (r : Registry T C) (t : Nat) :
    (∀ k rec, (k, rec) ∈ (r.retain_since t).by_target ↔
        ((k, rec) ∈ r.by_target
          ∧ (t ≤ rec.metrics.last_update ∨ 0 < rec.externalHandles)))
    ∧ (r.retain_since t).by_target.Sublist r.by_target
    ∧ (∀ k rec, (k, rec) ∈ r.by_target → rec.metrics.last_update < t →
        rec.externalHandles = 0 → (k, rec) ∉ (r.retain_since t).by_target) := by
  have hmem : ∀ k rec, (k, rec) ∈ (r.retain_since t).by_target ↔
      ((k, rec) ∈ r.by_target
        ∧ (t ≤ rec.metrics.last_update ∨ 0 < rec.externalHandles)) := by
    intro k rec
    simp [Registry.retain_since, List.mem_filter]
  refine ⟨hmem, List.filter_sublist _, ?_⟩
  intro k rec hin hlt h0 hcon
  rcases (hmem k rec).1 hcon with ⟨-, h | h⟩
  · omega
  · omega

/-- Witness for C1, replaying the `expiry` test scenario: a record updated
at time 1 survives a sweep at cutoff 2 while an external handle exists,
survives a sweep at cutoff 0 once the handle is dropped, and is evicted by a
sweep at cutoff 2 once the handle is dropped. -/
theorem C1_retain_since_spec_witness :
    ((123, ⟨1, ⟨1, 0, []⟩⟩) ∈
      ((⟨[(123, ⟨1, ⟨1, 0, []⟩⟩)]⟩ : Registry Nat Nat).retain_since 2).by_target)
    ∧ ((123, ⟨0, ⟨1, 0, []⟩⟩) ∈
      ((⟨[(123, ⟨0, ⟨1, 0, []⟩⟩)]⟩ : Registry Nat Nat).retain_since 0).by_target)
    ∧ ((123, ⟨0, ⟨1, 0, []⟩⟩) ∉
      ((⟨[(123, ⟨0, ⟨1, 0, []⟩⟩)]⟩ : Registry Nat Nat).retain_since 2).by_target) :=
  ⟨((C1_retain_since_spec ⟨[(123, ⟨1, ⟨1, 0, []⟩⟩)]⟩ 2).1 123 ⟨1, ⟨1, 0, []⟩⟩).mpr
      ⟨by decide, Or.inr (by decide)⟩,
   ((C1_retain_since_spec ⟨[(123, ⟨0, ⟨1, 0, []⟩⟩)]⟩ 0).1 123 ⟨0, ⟨1, 0, []⟩⟩).mpr
      ⟨by decide, Or.inl (by decide)⟩,
   (C1_retain_since_spec ⟨[(123, ⟨0, ⟨1, 0, []⟩⟩)]⟩ 2).2.2 123 ⟨0, ⟨1, 0, []⟩⟩
      (by decide) (by decide) (by decide)⟩

/-- C10: cloning a `Requests` copies the `Arc` pointer rather than the
registry, so after any sequence of record creations or mutations performed
through one clone, the original handle and any `Report` or `Layer` derived
from a clone all observe exactly the same registry contents. -/
theorem C10_clone_shares {T C : Type} (r : Requests T C) (s : Store T C)
    (fs : List (Registry T C → Registry T C)) (d : Nat) :
    (Requests.clone r).ptr = r.ptr
    ∧ Requests.view
        (fs.foldl (fun st f => Requests.mutate st (Requests.clone r) f) s) r
      = Requests.view
        (fs.foldl (fun st f => Requests.mutate st (Requests.clone r) f) s)
        (Requests.clone r)
    ∧ Report.view
        (fs.foldl (fun st f => Requests.mutate st (Requests.clone r) f) s)
        (Requests.into_report (Requests.clone r) d)
      = Requests.view
        (fs.foldl (fun st f => Requests.mutate st (Requests.clone r) f) s) r
    ∧ Layer.view
        (fs.foldl (fun st f => Requests.mutate st (Requests.clone r) f) s)
        (Requests.into_layer (Requests.clone r))
      = Requests.view
        (fs.foldl (fun st f => Requests.mutate st (Requests.clone r) f) s) r :=
  ⟨rfl, rfl, rfl, rfl⟩

end Linkerd
